import Mathlib

/-!
Shallow embedding of the FastAPI backend (app/) for specification checking.

Conventions used throughout:
* Python `dict` payloads with a fixed key set are Lean structures with
  `Option` fields for keys that may be absent.
* MongoDB collections are lists of documents; `find_one` is `List.find?`,
  `insert_one` appends (the repository declares no unique index).
* The monotonic clock (`time.monotonic`) and UTC timestamps are modelled on
  an integer timeline; the rate limiter and the token code only add
  durations and compare instants, so the order structure is all that is
  used.
* JWTs are modelled symbolically: a token is its payload together with the
  signing key and algorithm, and `jwt.decode` succeeds exactly when the
  verification key and algorithm match the signing ones and the `exp`
  claim, when present, has not passed (no signature collisions).
-/

/-! ### Python string primitives (kernel-computable replacements) -/

/-- ASCII lowercasing of one character, as `str.lower` acts on the ASCII
range used by `RATE_LIMIT` values. -/
def lowerChar (c : Char) : Char :=
  if 'A' ≤ c ∧ c ≤ 'Z' then Char.ofNat (c.toNat + 32) else c

/-- Model of `str.lower` on the character list of a string. -/
def pyLower (s : String) : String := ⟨s.data.map lowerChar⟩

/-- Python whitespace test for `str.strip` (space, tab, newline, CR, FF, VT). -/
def isPySpace (c : Char) : Bool :=
  c = ' ' ∨ c = '\t' ∨ c = '\n' ∨ c = '\r' ∨ c = '\x0c' ∨ c = '\x0b'

/-- Model of `str.strip()`: drop whitespace from both ends. -/
def pyStrip (s : String) : String :=
  ⟨((s.data.dropWhile isPySpace).reverse.dropWhile isPySpace).reverse⟩

/-- Model of `str.replace(" ", "")`: remove every space character. -/
def removeSpaces (s : String) : String :=
  ⟨s.data.filter (fun c => c ≠ ' ')⟩

/-- Python `"/" in s`. -/
def containsSlash (s : String) : Bool := s.data.any (fun c => c = '/')

/-- Model of `s.split("/", 1)`: characters before the first `'/'` and the remainder
after it; `none` when there is no slash. -/
def splitFirstSlash : List Char → Option (List Char × List Char)
  | [] => none
  | c :: cs =>
    if c = '/' then some ([], cs)
    else
      match splitFirstSlash cs with
      | none => none
      | some (a, b) => some (c :: a, b)

/-- Python `int(s)` restricted to the forms that occur here: an optional
sign followed by a nonempty run of decimal digits; anything else raises
`ValueError`, modelled as `none`. -/
def pyInt (s : String) : Option Int :=
  let step : List Char → Option Int := fun ds =>
    if ds = [] ∨ ¬ ds.all Char.isDigit then none
    else some (ds.foldl (fun acc d => acc * 10 + ((d.toNat - '0'.toNat : Nat) : Int)) 0)
  match s.data with
  | [] => none
  | c :: cs =>
    if c = '-' then (step cs).map (fun n => -n)
    else if c = '+' then step cs
    else step (c :: cs)

/-! ### app/core/config.py -/

/-- The fields of `Settings` that the embedded code reads (env-loaded
pydantic settings; defaults as in `app/core/config.py`). -/
structure Settings where
  RATE_LIMIT : String := "100/minute"
  JWT_SECRET : String := "change-me-in-production"
  JWT_ALGORITHM : String := "HS256"
  JWT_EXPIRE_MINUTES : Int := 15
  JWT_REFRESH_SECRET : String := "change-me-refresh-in-production"
  JWT_REFRESH_EXPIRE_DAYS : Int := 30
deriving DecidableEq

/-- The global `settings` instance with the in-code defaults. -/
def defaultSettings : Settings := {}

/-- Embeds `Settings.rate_limit_parsed`: parse `RATE_LIMIT` into
`(max_requests, window_seconds)`, e.g. `"100/minute" -> (100, 60)`. -/
def rate_limit_parsed (st : Settings) : Int × Int :=
  let s := removeSpaces (pyLower (pyStrip st.RATE_LIMIT))
  if ¬ containsSlash s then (100, 60)
  else
    match splitFirstSlash s.data with
    | none => (100, 60)
    | some (p, w) =>
      let part : String := ⟨p⟩
      let window : String := ⟨w⟩
      match pyInt part with
      | none => (100, 60)
      | some max_req =>
        if window = "minute" ∨ window = "min" ∨ window = "m" then (max_req, 60)
        else if window = "hour" ∨ window = "h" then (max_req, 3600)
        else if window = "second" ∨ window = "sec" ∨ window = "s" then (max_req, 1)
        else (max_req, 60)

example : rate_limit_parsed { defaultSettings with RATE_LIMIT := "100/minute" } = (100, 60) := by decide
example : rate_limit_parsed { defaultSettings with RATE_LIMIT := "50/hour" } = (50, 3600) := by decide
example : rate_limit_parsed { defaultSettings with RATE_LIMIT := "bogus/week" } = (100, 60) := by decide
example : rate_limit_parsed { defaultSettings with RATE_LIMIT := "50/week" } = (50, 60) := by decide
example : rate_limit_parsed { defaultSettings with RATE_LIMIT := " 7 / S " } = (7, 1) := by decide

/-! ### app/schemas/common.py and the exception handlers of app/main.py -/

/-- Embeds `ErrorResponse`: the error body `{success: false, error, message}`. -/
structure ErrorResponse where
  success : Bool := false
  error : String
  message : String
deriving DecidableEq

/-- A raised `HTTPException` as the auth code raises it: a status code and
a string `detail` (no endpoint in the embedded code passes a dict detail). -/
structure HTTPExc where
  status_code : Nat
  detail : String
deriving DecidableEq

/-- Embeds `http_exception_handler` of `app/main.py` on a string detail: the
response is `(status_code, ErrorResponse "request_failed" detail)`, with
the message `"Request failed"` when the detail is empty (falsy). -/
def http_exception_handler (e : HTTPExc) : Nat × ErrorResponse :=
  (e.status_code,
    { error := "request_failed"
      message := if e.detail = "" then "Request failed" else e.detail })

/-- Embeds `general_exception_handler` of `app/main.py`: any exception that
escapes a route produces a 500 with this fixed body. -/
def general_exception_handler : Nat × ErrorResponse :=
  (500, { error := "internal_server_error", message := "An unexpected error occurred" })

/-! ### app/middleware/rate_limit.py -/

/-- The middleware's `self._storage` dict `ip -> (count, window_start)`,
as an association list with unique keys. -/
abbrev RLStore := List (String × Int × Int)

/-- Dict read `self._storage.get(key)`/`key in self._storage`. -/
def lookupStore : RLStore → String → Option (Int × Int)
  | [], _ => none
  | (k, v) :: rest, key => if k = key then some v else lookupStore rest key

/-- Dict write `self._storage[key] = v`: replace the binding of `key`, or
add it when absent. -/
def storeSet : RLStore → String → Int × Int → RLStore
  | [], key, v => [(key, v)]
  | (k, w) :: rest, key, v =>
    if k = key then (key, v) :: rest else (k, w) :: storeSet rest key v

/-- The `ErrorResponse` body of the 429 answer built in `dispatch`. -/
def rlBody (maxReq window : Int) : ErrorResponse :=
  { error := "rate_limit_exceeded"
    message := "Too many requests. Limit: " ++ toString maxReq ++ " per " ++ toString window ++ "s." }

/-- Outcome of one `dispatch` call: either the inner handler is invoked
(`await call_next(request)`), or a 429 `JSONResponse` is returned without
invoking it. -/
inductive RLOutcome where
  | next : RLOutcome
  | limited (status : Nat) (body : ErrorResponse) : RLOutcome
deriving DecidableEq

/-- Embeds `RateLimitMiddleware.dispatch` for one request: key `key` at monotonic
time `now`, with the configured `maxReq`/`window` and the current storage.
Returns the outcome and the updated storage. The whole step is one atomic
transition: the Python critical section contains no `await`, so the asyncio
event loop never interleaves two of these read-modify-write sections. -/
def dispatch (maxReq window : Int) (storage : RLStore) (key : String) (now : Int) :
    RLOutcome × RLStore :=
  match lookupStore storage key with
  | some cs0 =>
    let cs := if now - cs0.2 ≥ window then ((0 : Int), now) else cs0
    let count := cs.1 + 1
    let storage1 := storeSet storage key (count, cs.2)
    if count > maxReq then (.limited 429 (rlBody maxReq window), storage1)
    else (.next, storage1)
  | none => (.next, storeSet storage key (1, now))

/-- Runs `n` requests bearing the same key, all arriving at time `t`
(concurrently), executed as the event loop serialises their atomic
bookkeeping sections, starting from empty storage. Returns how many were
accepted (handler invoked) and the final storage. -/
def runSameKey (maxReq window : Int) (key : String) (t : Int) : Nat → Nat × RLStore
  | 0 => (0, [])
  | n + 1 =>
    let (acc, st) := runSameKey maxReq window key t n
    let (out, st1) := dispatch maxReq window st key t
    (acc + (if out = .next then 1 else 0), st1)

example : dispatch 3 60 [] "1.2.3.4" 0 = (.next, [("1.2.3.4", 1, 0)]) := by decide
example : (dispatch 3 60 [("k", 3, 0)] "k" 10).1 = .limited 429 (rlBody 3 60) := by decide
example : (runSameKey 3 60 "k" 0 5).1 = 3 := by decide
example : (runSameKey 0 60 "k" 0 1).1 = 1 := by decide
example : dispatch 0 60 [("k", 5, 0)] "k" 61 = (.limited 429 (rlBody 0 60), [("k", 1, 61)]) := by decide

/-! ### app/core/security.py — JWT model -/

/-- A JWT payload dict over the keys the code reads and writes:
`sub`, `type` and `exp` (seconds timestamp); absent keys are `none`. -/
structure Claims where
  sub : Option String := none
  type : Option String := none
  exp : Option Int := none
deriving DecidableEq

/-- A signed token, symbolically: the encoded payload plus the key and
algorithm it was signed with. -/
structure Jwt where
  payload : Claims
  key : String
  alg : String
deriving DecidableEq

/-- Model of `jwt.encode(to_encode, key, algorithm)`. -/
def jwtEncode (payload : Claims) (key alg : String) : Jwt := ⟨payload, key, alg⟩

/-- The `exp` validation `python-jose` performs inside `jwt.decode`
(zero leeway): a present `exp` must not lie in the past. -/
def expOk (e : Option Int) (now : Int) : Bool :=
  match e with
  | none => true
  | some t => decide (now ≤ t)

/-- Model of `jwt.decode(token, key, algorithms=algs)` at time `now`: succeeds with
the payload exactly when the verification key equals the signing key, the
algorithm is allowed and `exp` has not passed; every other case raises
`JWTError` (modelled as `none`). -/
def jwtDecode (tok : Jwt) (key : String) (algs : List String) (now : Int) : Option Claims :=
  if tok.key = key ∧ tok.alg ∈ algs ∧ expOk tok.payload.exp now = true then
    some tok.payload
  else none

/-- Embeds `create_access_token(data)` at time `now`: copy the data and set
`exp = now + JWT_EXPIRE_MINUTES minutes` and `type = "access"`, then sign
with `JWT_SECRET`. -/
def create_access_token (s : Settings) (data : Claims) (now : Int) : Jwt :=
  jwtEncode
    { data with exp := some (now + s.JWT_EXPIRE_MINUTES * 60), type := some "access" }
    s.JWT_SECRET s.JWT_ALGORITHM

/-- Embeds `create_refresh_token(data)` at time `now`: copy the data and set
`exp = now + JWT_REFRESH_EXPIRE_DAYS days` and `type = "refresh"`, then
sign with `JWT_REFRESH_SECRET`. -/
def create_refresh_token (s : Settings) (data : Claims) (now : Int) : Jwt :=
  jwtEncode
    { data with exp := some (now + s.JWT_REFRESH_EXPIRE_DAYS * 86400), type := some "refresh" }
    s.JWT_REFRESH_SECRET s.JWT_ALGORITHM

/-- Embeds `decode_access_token`: decode against `JWT_SECRET`; `None` on
`JWTError` or when the `type` claim is not `"access"`. -/
def decode_access_token (s : Settings) (tok : Jwt) (now : Int) : Option Claims :=
  match jwtDecode tok s.JWT_SECRET [s.JWT_ALGORITHM] now with
  | none => none
  | some payload => if payload.type ≠ some "access" then none else some payload

/-- Embeds `decode_refresh_token`: decode against `JWT_REFRESH_SECRET`; `None` on
`JWTError` or when the `type` claim is not `"refresh"`. -/
def decode_refresh_token (s : Settings) (tok : Jwt) (now : Int) : Option Claims :=
  match jwtDecode tok s.JWT_REFRESH_SECRET [s.JWT_ALGORITHM] now with
  | none => none
  | some payload => if payload.type ≠ some "refresh" then none else some payload

/-- Embeds `create_token_pair(user_id)`: access and refresh token for
`{"sub": user_id}`. -/
def create_token_pair (s : Settings) (user_id : String) (now : Int) : Jwt × Jwt :=
  (create_access_token s { sub := some user_id } now,
   create_refresh_token s { sub := some user_id } now)

example :
    decode_access_token defaultSettings
      (create_access_token defaultSettings { sub := some "u1" } 0) 0
      = some { sub := some "u1", type := some "access", exp := some 900 } := by decide
example :
    decode_access_token defaultSettings
      (create_refresh_token defaultSettings { sub := some "u1" } 0) 5 = none := by decide
example :
    decode_refresh_token { defaultSettings with JWT_REFRESH_SECRET := "change-me-in-production" }
      (create_access_token { defaultSettings with JWT_REFRESH_SECRET := "change-me-in-production" }
        { sub := some "u1" } 0) 0 = none := by decide

/-! ### The users collection and app/routers/auth.py -/

/-- A document of the `users` collection, over the fields the embedded
code reads and writes; `id` is the string form of Mongo's `_id`. -/
structure UserDoc where
  id : String
  email : String
  password_hash : Option String := none
  full_name : Option String := none
  avatar_url : Option String := none
  provider : String := "email"
  github_id : Option String := none
  subscription_tier : String := "free"
  last_login : Int := 0
  created_at : Int := 0
  updated_at : Int := 0
deriving DecidableEq

/-- A user document with defaults, for concrete instances. -/
def mkUser (id email : String) : UserDoc := { id := id, email := email }

/-- Model of `users.find_one({"email": email})`. -/
def findOneByEmail (users : List UserDoc) (email : String) : Option UserDoc :=
  users.find? (fun u => u.email == email)

/-- Model of `users.find_one({"_id": ObjectId(uid)})`, after the id string has been
accepted by `ObjectId`. -/
def findOneById (users : List UserDoc) (uid : String) : Option UserDoc :=
  users.find? (fun u => u.id == uid)

/-- Model of `users.insert_one(doc)`: the repository declares no unique index on
`users`, so an insert always succeeds, duplicates included. -/
def insert_one (users : List UserDoc) (doc : UserDoc) : List UserDoc :=
  users ++ [doc]

/-- Number of records of the collection holding the given email. -/
def countEmail (users : List UserDoc) (email : String) : Nat :=
  (users.filter (fun u => u.email == email)).length

/-- Hex digit test for `bson.ObjectId` validation. -/
def isHexChar (c : Char) : Bool :=
  c.isDigit ∨ ('a' ≤ c ∧ c ≤ 'f') ∨ ('A' ≤ c ∧ c ≤ 'F')

/-- Validity test of `bson.ObjectId(s)`: it accepts exactly a 24-character hex string; on any
other string it raises `InvalidId`. -/
def isValidObjectId (s : String) : Bool :=
  s.data.length = 24 ∧ s.data.all isHexChar

/-- The three ways `get_current_user` can leave the route: the user
document, the uniform 401 `HTTPException` (`"Could not validate
credentials"`), or the uncaught `bson.errors.InvalidId` raised by
`ObjectId(user_id)` — the latter escapes the dependency and is answered by
`general_exception_handler` as a 500. -/
inductive AuthOutcome where
  | ok (user : UserDoc) : AuthOutcome
  | credentialsError : AuthOutcome
  | invalidIdError : AuthOutcome
deriving DecidableEq

/-- Embeds `get_current_user(token)` at time `now` against collection `users`:
decode the access token, read `sub`, build `ObjectId(user_id)` (which
raises on a malformed id string) and look the user up. -/
def get_current_user (s : Settings) (tok : Jwt) (now : Int) (users : List UserDoc) :
    AuthOutcome :=
  match decode_access_token s tok now with
  | none => .credentialsError
  | some payload =>
    match payload.sub with
    | none => .credentialsError
    | some user_id =>
      if isValidObjectId user_id then
        match findOneById users user_id with
        | none => .credentialsError
        | some user => .ok user
      else .invalidIdError

/-- The response the client sees for each failing `AuthOutcome` (`none`
for the success case, where the route proceeds). -/
def authOutcomeResponse : AuthOutcome → Option (Nat × ErrorResponse)
  | .ok _ => none
  | .credentialsError => some (http_exception_handler ⟨401, "Could not validate credentials"⟩)
  | .invalidIdError => some general_exception_handler

/-- Embeds `_update_last_login`: set `last_login` on the record with the given
id. -/
def updateLastLogin (users : List UserDoc) (uid : String) (now : Int) : List UserDoc :=
  users.map (fun u => if u.id == uid then { u with last_login := now } else u)

/-- Embeds `login` (POST /auth/login) against collection `users`, with the
password verifier `vp` abstracting `verify_password` (bcrypt). Returns the
updated collection and either the token pair or the raised
`HTTPException`. The single Python guard
`if not user or not user.get("password_hash")` covers a missing record, a
missing hash and an empty-string hash (falsy). -/
def login (s : Settings) (vp : String → String → Bool) (users : List UserDoc)
    (username password : String) (now : Int) :
    List UserDoc × Except HTTPExc (Jwt × Jwt) :=
  match findOneByEmail users username with
  | none => (users, .error ⟨401, "Invalid email or password"⟩)
  | some user =>
    match user.password_hash with
    | none => (users, .error ⟨401, "Invalid email or password"⟩)
    | some h =>
      if h = "" then (users, .error ⟨401, "Invalid email or password"⟩)
      else if vp password h then
        (updateLastLogin users user.id now, .ok (create_token_pair s user.id now))
      else (users, .error ⟨401, "Invalid email or password"⟩)

/-- The duplicate-email pre-check of `register`:
`users.find_one({"email": data.email})` is truthy. -/
def register_precheck (users : List UserDoc) (email : String) : Bool :=
  (findOneByEmail users email).isSome

/-- Embeds `register` (POST /auth/register), with `hp` abstracting
`hash_password`; `newId` is the `_id` Mongo assigns on insert. Returns the
updated collection and either the token pair or the raised 400. -/
def register (s : Settings) (hp : String → String) (users : List UserDoc)
    (email password : String) (full_name : Option String) (now : Int) (newId : String) :
    List UserDoc × Except HTTPExc (Jwt × Jwt) :=
  if register_precheck users email then
    (users, .error ⟨400, "Email already registered"⟩)
  else
    let doc : UserDoc :=
      { id := newId, email := email, password_hash := some (hp password)
        full_name := full_name, avatar_url := none, provider := "email"
        github_id := none, subscription_tier := "free"
        last_login := now, created_at := now, updated_at := now }
    (insert_one users doc, .ok (create_token_pair s newId now))

/-- The GitHub profile fields the callback reads: `str(github_user["id"])`,
`github_user.get("name")` and `github_user.get("avatar_url")`. -/
structure GithubUser where
  id : String
  name : Option String := none
  avatar_url : Option String := none
deriving DecidableEq

/-- Python `a or b` on optional strings: `b` when `a` is falsy (`None` or
`""`), else `a`. -/
def pyOrStr (a b : Option String) : Option String :=
  match a with
  | none => b
  | some s => if s = "" then b else some s

/-- The `$set` update `github_callback` applies to an existing user found
by provider id or email: provider id, display name
(`github_user.get("name") or user.get("full_name")`), avatar, `last_login`
and `updated_at`. -/
def applyGithubUpdate (u : UserDoc) (gh : GithubUser) (now : Int) : UserDoc :=
  { u with
    github_id := some gh.id
    full_name := pyOrStr gh.name u.full_name
    avatar_url := gh.avatar_url
    last_login := now
    updated_at := now }

example :
    (applyGithubUpdate { mkUser "1" "a@b.c" with full_name := some "Old" }
      { id := "42", name := some "New", avatar_url := some "av" } 5).full_name
      = some "New" := by decide
example :
    get_current_user defaultSettings
      (create_access_token defaultSettings { sub := some "u" } 0) 0 []
      = .invalidIdError := by decide

/-! ### Helper lemmas -/

/-- Decoding a token with the key and algorithm it was signed with yields
its payload, as long as `exp` has not passed. -/
theorem jwtDecode_encode (p : Claims) (k a : String) (now : Int)
    (h : expOk p.exp now = true) :
    jwtDecode (jwtEncode p k a) k [a] now = some p := by
  simp [jwtDecode, jwtEncode, h]

/-- Lemma: `decode_access_token` rejects any token whose `type` claim is not
`"access"`, whatever its key or expiry. -/
theorem decode_access_token_type_ne (s : Settings) (tok : Jwt) (t : Int)
    (h : tok.payload.type ≠ some "access") :
    decode_access_token s tok t = none := by
  unfold decode_access_token jwtDecode
  split
  · rfl
  · next payload heq =>
    split at heq
    · obtain rfl : tok.payload = payload := by injection heq
      simp [h]
    · exact Option.noConfusion heq

/-- Lemma: `decode_refresh_token` rejects any token whose `type` claim is not
`"refresh"`, whatever its key or expiry. -/
theorem decode_refresh_token_type_ne (s : Settings) (tok : Jwt) (t : Int)
    (h : tok.payload.type ≠ some "refresh") :
    decode_refresh_token s tok t = none := by
  unfold decode_refresh_token jwtDecode
  split
  · rfl
  · next payload heq =>
    split at heq
    · obtain rfl : tok.payload = payload := by injection heq
      simp [h]
    · exact Option.noConfusion heq

/-! ### Claims -/

/-- C1: Round-trip — for every subject `S`, decoding a freshly issued
access token with the access verifier succeeds and yields claims with
`sub = S` and `type = "access"`; decoding a freshly issued refresh token
with the refresh verifier yields `sub = S` and `type = "refresh"`. The
hypotheses say the configured lifetimes are nonnegative (defaults: 15
minutes and 30 days), so a fresh token has not expired. -/
theorem token_roundtrip (s : Settings) (S : String) (now : Int)
    (hA : 0 ≤ s.JWT_EXPIRE_MINUTES) (hR : 0 ≤ s.JWT_REFRESH_EXPIRE_DAYS) :
    (∃ c, decode_access_token s (create_access_token s { sub := some S } now) now = some c ∧
      c.sub = some S ∧ c.type = some "access") ∧
    (∃ c, decode_refresh_token s (create_refresh_token s { sub := some S } now) now = some c ∧
      c.sub = some S ∧ c.type = some "refresh") := by
  constructor
  · refine ⟨⟨some S, some "access", some (now + s.JWT_EXPIRE_MINUTES * 60)⟩, ?_, rfl, rfl⟩
    unfold decode_access_token create_access_token
    rw [jwtDecode_encode]
    · simp
    · simp only [expOk, decide_eq_true_eq]
      omega
  · refine ⟨⟨some S, some "refresh", some (now + s.JWT_REFRESH_EXPIRE_DAYS * 86400)⟩, ?_, rfl, rfl⟩
    unfold decode_refresh_token create_refresh_token
    rw [jwtDecode_encode]
    · simp
    · simp only [expOk, decide_eq_true_eq]
      omega

/-- Witness for C1 at the default settings, subject `"user1"`, issue time 0. -/
theorem token_roundtrip_witness :
    (∃ c, decode_access_token defaultSettings
        (create_access_token defaultSettings { sub := some "user1" } 0) 0 = some c ∧
      c.sub = some "user1" ∧ c.type = some "access") ∧
    (∃ c, decode_refresh_token defaultSettings
        (create_refresh_token defaultSettings { sub := some "user1" } 0) 0 = some c ∧
      c.sub = some "user1" ∧ c.type = some "refresh") :=
  token_roundtrip defaultSettings "user1" 0 (by decide) (by decide)

/-- C2: Cross-use rejection — for every settings value (the secrets may
coincide or differ), every subject and all times, the access verifier
rejects a refresh token and the refresh verifier rejects an access token:
when the secrets differ the signature check fails, and when they coincide
the independent `type`-claim check fails. -/
theorem token_cross_use_rejected (s : Settings) (S : String) (now t : Int) :
    decode_access_token s (create_refresh_token s { sub := some S } now) t = none ∧
    decode_refresh_token s (create_access_token s { sub := some S } now) t = none := by
  constructor
  · exact decode_access_token_type_ne s _ t (by simp [create_refresh_token, jwtEncode])
  · exact decode_refresh_token_type_ne s _ t (by simp [create_access_token, jwtEncode])

/-- C8: `rate_limit_parsed` on the claim's inputs: `"100/minute"` gives
`(100, 60)`, `"50/hour"` gives `(50, 3600)`, a non-integer count
(`"bogus/week"`) gives the full default `(100, 60)`, and a parseable count
with an unrecognised unit (`"50/week"`) keeps the count and falls back to
the 60-second window. -/
theorem rate_limit_parsed_cases :
    rate_limit_parsed { defaultSettings with RATE_LIMIT := "100/minute" } = (100, 60) ∧
    rate_limit_parsed { defaultSettings with RATE_LIMIT := "50/hour" } = (50, 3600) ∧
    rate_limit_parsed { defaultSettings with RATE_LIMIT := "bogus/week" } = (100, 60) ∧
    rate_limit_parsed { defaultSettings with RATE_LIMIT := "50/week" } = (50, 60) := by
  refine ⟨by decide, by decide, by decide, by decide⟩

/-- A request from an unknown key records `(1, now)` and is passed on. -/
theorem dispatch_fresh (m w : Int) (st : RLStore) (k : String) (t : Int)
    (h : lookupStore st k = none) :
    dispatch m w st k t = (.next, storeSet st k (1, t)) := by
  unfold dispatch
  rw [h]

/-- A request inside the current window below the limit increments the
counter and is passed on. -/
theorem dispatch_hit_accept (m w : Int) (st : RLStore) (k : String) (t c t0 : Int)
    (h : lookupStore st k = some (c, t0)) (hw : t - t0 < w) (hc : c + 1 ≤ m) :
    dispatch m w st k t = (.next, storeSet st k (c + 1, t0)) := by
  unfold dispatch
  rw [h]
  dsimp only
  rw [if_neg (show ¬ (t - t0 ≥ w) by omega)]
  dsimp only
  rw [if_neg (show ¬ (c + 1 > m) by omega)]

/-- A request inside the current window above the limit stores the
incremented counter and is answered with the 429 body. -/
theorem dispatch_hit_reject (m w : Int) (st : RLStore) (k : String) (t c t0 : Int)
    (h : lookupStore st k = some (c, t0)) (hw : t - t0 < w) (hc : c + 1 > m) :
    dispatch m w st k t = (.limited 429 (rlBody m w), storeSet st k (c + 1, t0)) := by
  unfold dispatch
  rw [h]
  dsimp only
  rw [if_neg (show ¬ (t - t0 ≥ w) by omega)]
  dsimp only
  rw [if_pos (show c + 1 > m by omega)]

/-- A request at or after `window_start + window_duration` resets the
record to `(1, now)`; it is passed on when the limit admits at least one
request. -/
theorem dispatch_reset_accept (m w : Int) (st : RLStore) (k : String) (t c t0 : Int)
    (h : lookupStore st k = some (c, t0)) (hw : t - t0 ≥ w) (hm : 1 ≤ m) :
    dispatch m w st k t = (.next, storeSet st k (1, t)) := by
  unfold dispatch
  rw [h]
  dsimp only
  rw [if_pos (show t - t0 ≥ w from hw)]
  dsimp only
  rw [if_neg (show ¬ ((0 : Int) + 1 > m) by omega)]
  norm_num

/-- A request on the reset path with a limit below one is rejected, and
still stores `(1, now)`. -/
theorem dispatch_reset_reject (m w : Int) (st : RLStore) (k : String) (t c t0 : Int)
    (h : lookupStore st k = some (c, t0)) (hw : t - t0 ≥ w) (hm : m < 1) :
    dispatch m w st k t = (.limited 429 (rlBody m w), storeSet st k (1, t)) := by
  unfold dispatch
  rw [h]
  dsimp only
  rw [if_pos (show t - t0 ≥ w from hw)]
  dsimp only
  rw [if_pos (show (0 : Int) + 1 > m by omega)]
  norm_num

/-- C3: Fixed-window accounting with `max_requests = 3`,
`window_duration = 60`: starting from a fresh key, three requests within
60 seconds of the window start are all passed to the handler; a fourth
within the same window is answered 429 with the rate-limit body (the
handler is not invoked: `dispatch` returns the `JSONResponse` before
`call_next`); and a request at or after `window_start + 60` is accepted
and leaves the stored record at `(count = 1, window_start = arrival)`.
Each conjunct feeds the storage produced by the previous one. -/
theorem rate_limit_fixed_window (k : String) (t0 t1 t2 t3 t4 : Int)
    (h1 : t1 - t0 < 60) (h2 : t2 - t0 < 60) (h3 : t3 - t0 < 60) (h4 : t4 - t0 ≥ 60) :
    dispatch 3 60 [] k t0 = (.next, [(k, 1, t0)]) ∧
    dispatch 3 60 [(k, 1, t0)] k t1 = (.next, [(k, 2, t0)]) ∧
    dispatch 3 60 [(k, 2, t0)] k t2 = (.next, [(k, 3, t0)]) ∧
    dispatch 3 60 [(k, 3, t0)] k t3 = (.limited 429 (rlBody 3 60), [(k, 4, t0)]) ∧
    dispatch 3 60 [(k, 4, t0)] k t4 = (.next, [(k, 1, t4)]) := by
  have lk : ∀ c s : Int, lookupStore [(k, c, s)] k = some (c, s) := by
    intro c s; simp [lookupStore]
  have ss : ∀ (c s c2 s2 : Int), storeSet [(k, c, s)] k (c2, s2) = [(k, c2, s2)] := by
    intro c s c2 s2; simp [storeSet]
  refine ⟨dispatch_fresh 3 60 [] k t0 rfl, ?_, ?_, ?_, ?_⟩
  · rw [dispatch_hit_accept 3 60 _ k t1 1 t0 (lk 1 t0) h1 (by omega), ss]
    norm_num
  · rw [dispatch_hit_accept 3 60 _ k t2 2 t0 (lk 2 t0) h2 (by omega), ss]
    norm_num
  · rw [dispatch_hit_reject 3 60 _ k t3 3 t0 (lk 3 t0) h3 (by omega), ss]
    norm_num
  · rw [dispatch_reset_accept 3 60 _ k t4 4 t0 (lk 4 t0) h4 (by omega), ss]

/-- Witness for C3: key `"1.2.3.4"`, window start 0, in-window arrivals at
1, 2, 3 and a reset arrival at 60. -/
theorem rate_limit_fixed_window_witness :
    dispatch 3 60 [] "1.2.3.4" 0 = (.next, [("1.2.3.4", 1, 0)]) ∧
    dispatch 3 60 [("1.2.3.4", 1, 0)] "1.2.3.4" 1 = (.next, [("1.2.3.4", 2, 0)]) ∧
    dispatch 3 60 [("1.2.3.4", 2, 0)] "1.2.3.4" 2 = (.next, [("1.2.3.4", 3, 0)]) ∧
    dispatch 3 60 [("1.2.3.4", 3, 0)] "1.2.3.4" 3
      = (.limited 429 (rlBody 3 60), [("1.2.3.4", 4, 0)]) ∧
    dispatch 3 60 [("1.2.3.4", 4, 0)] "1.2.3.4" 60 = (.next, [("1.2.3.4", 1, 60)]) :=
  rate_limit_fixed_window "1.2.3.4" 0 1 2 3 60
    (by decide) (by decide) (by decide) (by decide)

/-- C10: For every key absent from the limiter's storage, the dispatch
step accepts the request and stores `(1, now)` with a conclusion
independent of `max_requests` (the fresh-key branch never compares against
the limit, so the first request from a fresh key is admitted for every
configured limit, `max_requests = 0` included); while a request taken on
the window-reset path with `max_requests = 0` is rejected. -/
theorem fresh_key_first_request :
    (∀ (maxReq window : Int) (st : RLStore) (k : String) (t : Int),
      lookupStore st k = none →
      dispatch maxReq window st k t = (.next, storeSet st k (1, t))) ∧
    (∀ (window : Int) (st : RLStore) (k : String) (t c t0 : Int),
      lookupStore st k = some (c, t0) → t - t0 ≥ window →
      dispatch 0 window st k t = (.limited 429 (rlBody 0 window), storeSet st k (1, t))) :=
  ⟨fun m w st k t h => dispatch_fresh m w st k t h,
   fun w st k t c t0 h hw => dispatch_reset_reject 0 w st k t c t0 h hw (by omega)⟩

/-- Witness for C10: a fresh key admitted under `max_requests = 0`, and
the same key rejected on the reset path under `max_requests = 0`. -/
theorem fresh_key_first_request_witness :
    dispatch 0 60 [] "k" 5 = (.next, [("k", 1, 5)]) ∧
    dispatch 0 60 [("k", 1, 5)] "k" 70 = (.limited 429 (rlBody 0 60), [("k", 1, 70)]) :=
  ⟨fresh_key_first_request.1 0 60 [] "k" 5 rfl,
   fresh_key_first_request.2 60 [("k", 1, 5)] "k" 70 1 5 (by decide) (by decide)⟩

/-- Closed form of `n ≥ 1` same-key same-instant requests from empty
storage under a limit `m ≥ 1`: `min n m` are accepted and the stored
record is `(n, t)`. -/
theorem runSameKey_closed (m w : Int) (k : String) (t : Int) (hm : 1 ≤ m) (hw : 0 < w) :
    ∀ n : Nat, 1 ≤ n → runSameKey m w k t n = (min n m.toNat, [(k, ((n : Int), t))]) := by
  intro n hn
  induction n with
  | zero => omega
  | succ n ih =>
    cases Nat.eq_zero_or_pos n with
    | inl h0 =>
      subst h0
      simp only [runSameKey]
      simp [dispatch_fresh m w [] k t rfl, storeSet, Prod.ext_iff]
      omega
    | inr hpos =>
      simp only [runSameKey]
      rw [ih hpos]
      have hlk : lookupStore [(k, ((n : Int), t))] k = some ((n : Int), t) := by
        simp [lookupStore]
      by_cases hc : ((n : Int) + 1) ≤ m
      · rw [dispatch_hit_accept m w _ k t _ t hlk (by omega) hc]
        simp [storeSet, Prod.ext_iff]
        omega
      · rw [dispatch_hit_reject m w _ k t _ t hlk (by omega) (by omega)]
        simp [storeSet, Prod.ext_iff]
        omega

/-- C7 (amended): admission bound for concurrent same-key requests. The
critical section of `dispatch` contains no `await`, so the asyncio event
loop executes the `n` read-modify-write sections atomically in some
order, modelled by `runSameKey`. Provided `max_requests = m ≥ 1` and the
window is positive (every parsed configuration has window 1, 60 or 3600),
exactly `min n m` of `n` concurrent requests are accepted — so for
`n > m` exactly `m` are accepted and `n − m` rejected, and never more
than `m`. (The claim as frozen also asserts this for `m = 0`, where the
fresh-key path admits one request; see the counterexample.) -/
theorem rate_limit_admission_bound (m w : Int) (k : String) (t : Int) (n : Nat)
    (hm : 1 ≤ m) (hw : 0 < w) :
    (runSameKey m w k t n).1 = min n m.toNat := by
  cases Nat.eq_zero_or_pos n with
  | inl h0 =>
    subst h0
    simp [runSameKey]
  | inr hpos =>
    rw [runSameKey_closed m w k t hm hw n hpos]

/-- Witness for C7 (amended): 5 concurrent requests, limit 3: exactly 3
accepted. -/
theorem rate_limit_admission_bound_witness :
    (runSameKey 3 60 "k" 0 5).1 = min 5 ((3 : Int).toNat) :=
  rate_limit_admission_bound 3 60 "k" 0 5 (by decide) (by decide)

/-- Counterexample to C7 as frozen: `"0/minute"` is a parseable
configuration with `max_requests = 0`, and a single request (`N = 1 >
M = 0`) is accepted rather than rejected, so more than `M` requests are
admitted. -/
theorem rate_limit_zero_max_first_accepted :
    rate_limit_parsed { defaultSettings with RATE_LIMIT := "0/minute" } = (0, 60) ∧
    (runSameKey 0 60 "k" 0 1).1 = 1 :=
  ⟨by decide, by decide⟩

/-- C4: Uniform login failure — a login with an email absent from the
directory, a login against a record with no password hash (OAuth-only
account), and a login against a record whose hash fails verification all
produce the same raised exception, and through the exception handler the
same externally visible response: status 401 with the body
`{success: false, error: "request_failed", message: "Invalid email or
password"}`. Nothing distinguishes which sub-check failed. -/
theorem login_uniform_failure (s : Settings) (vp : String → String → Bool)
    (db1 : List UserDoc) (e1 p1 : String) (n1 : Int)
    (db2 : List UserDoc) (e2 p2 : String) (n2 : Int) (u2 : UserDoc)
    (db3 : List UserDoc) (e3 p3 : String) (n3 : Int) (u3 : UserDoc) (hsh : String)
    (c1 : findOneByEmail db1 e1 = none)
    (c2 : findOneByEmail db2 e2 = some u2) (c2h : u2.password_hash = none)
    (c3 : findOneByEmail db3 e3 = some u3) (c3h : u3.password_hash = some hsh)
    (c3ne : hsh ≠ "") (c3v : vp p3 hsh = false) :
    ∃ exc : HTTPExc,
      (login s vp db1 e1 p1 n1).2 = .error exc ∧
      (login s vp db2 e2 p2 n2).2 = .error exc ∧
      (login s vp db3 e3 p3 n3).2 = .error exc ∧
      http_exception_handler exc
        = (401, { error := "request_failed", message := "Invalid email or password" }) := by
  refine ⟨⟨401, "Invalid email or password"⟩, ?_, ?_, ?_, by decide⟩
  · simp [login, c1]
  · simp [login, c2, c2h]
  · simp [login, c3, c3h, c3ne, c3v]

/-- Witness for C4: the three failure scenarios on concrete directories,
with a verifier that rejects everything. -/
theorem login_uniform_failure_witness :
    ∃ exc : HTTPExc,
      (login defaultSettings (fun _ _ => false) [] "x@y.z" "pw" 0).2 = .error exc ∧
      (login defaultSettings (fun _ _ => false) [mkUser "1" "a@b.c"] "a@b.c" "pw" 0).2
        = .error exc ∧
      (login defaultSettings (fun _ _ => false)
        [{ mkUser "2" "c@d.e" with password_hash := some "H" }] "c@d.e" "pw" 0).2
        = .error exc ∧
      http_exception_handler exc
        = (401, { error := "request_failed", message := "Invalid email or password" }) :=
  login_uniform_failure defaultSettings (fun _ _ => false)
    [] "x@y.z" "pw" 0
    [mkUser "1" "a@b.c"] "a@b.c" "pw" 0 (mkUser "1" "a@b.c")
    [{ mkUser "2" "c@d.e" with password_hash := some "H" }] "c@d.e" "pw" 0
    { mkUser "2" "c@d.e" with password_hash := some "H" } "H"
    (by decide) (by decide) (by decide) (by decide) (by decide) (by decide) rfl

/-- A passing search stays passing after appending a record with the
searched email when the original list had none. -/
theorem findOneByEmail_append_self (users : List UserDoc) (email : String) (doc : UserDoc)
    (h : findOneByEmail users email = none) (hd : doc.email = email) :
    findOneByEmail (users ++ [doc]) email = some doc := by
  unfold findOneByEmail at *
  rw [List.find?_append, h]
  simp [List.find?, hd]

/-- A collection in which no record carries the email has zero records for
it. -/
theorem countEmail_eq_zero (users : List UserDoc) (email : String)
    (h : findOneByEmail users email = none) : countEmail users email = 0 := by
  unfold countEmail
  rw [List.length_eq_zero, List.filter_eq_nil_iff]
  exact fun u hu => (List.find?_eq_none.mp h) u hu

/-- C5 (amended): sequentially, `register` with an email already present
fails with the 400 conflict (`"Email already registered"`) and leaves the
collection unchanged, and two sequential `register` calls with the same
email leave exactly one record for it — via the `find_one` pre-check
alone. (The atomic-rejection clause of the frozen claim fails; see the
counterexample.) -/
theorem register_duplicate_email (s : Settings) (hp : String → String)
    (users users2 : List UserDoc) (email pw1 pw2 : String) (fn1 fn2 : Option String)
    (n1 n2 : Int) (id1 id2 : String) (u : UserDoc)
    (h0 : findOneByEmail users email = none)
    (hdup : findOneByEmail users2 email = some u) :
    register s hp users2 email pw2 fn2 n2 id2
      = (users2, .error ⟨400, "Email already registered"⟩) ∧
    (∃ tokens, (register s hp users email pw1 fn1 n1 id1).2 = .ok tokens) ∧
    register s hp (register s hp users email pw1 fn1 n1 id1).1 email pw2 fn2 n2 id2
      = ((register s hp users email pw1 fn1 n1 id1).1,
         .error ⟨400, "Email already registered"⟩) ∧
    countEmail (register s hp users email pw1 fn1 n1 id1).1 email = 1 := by
  have hpre : register_precheck users email = false := by
    simp [register_precheck, h0]
  have hreg1 : (register s hp users email pw1 fn1 n1 id1).1
      = users ++ [{ id := id1, email := email, password_hash := some (hp pw1)
                    full_name := fn1, avatar_url := none, provider := "email"
                    github_id := none, subscription_tier := "free"
                    last_login := n1, created_at := n1, updated_at := n1 }] := by
    simp [register, hpre, insert_one]
  have hfind : findOneByEmail (register s hp users email pw1 fn1 n1 id1).1 email
      = some { id := id1, email := email, password_hash := some (hp pw1)
               full_name := fn1, avatar_url := none, provider := "email"
               github_id := none, subscription_tier := "free"
               last_login := n1, created_at := n1, updated_at := n1 } := by
    rw [hreg1]
    exact findOneByEmail_append_self users email _ h0 rfl
  refine ⟨?_, ⟨create_token_pair s id1 n1, ?_⟩, ?_, ?_⟩
  · simp [register, register_precheck, hdup]
  · simp [register, hpre]
  · have hpre2 : register_precheck (register s hp users email pw1 fn1 n1 id1).1 email = true := by
      simp [register_precheck, hfind]
    generalize hX : (register s hp users email pw1 fn1 n1 id1).1 = X at hpre2 ⊢
    simp [register, hpre2]
  · rw [hreg1]
    unfold countEmail
    rw [List.filter_append]
    have h1 : (List.filter (fun u => u.email == email) users) = [] := by
      rw [List.filter_eq_nil_iff]
      exact fun u hu => (List.find?_eq_none.mp h0) u hu
    rw [h1]
    simp

/-- Counterexample to C5's atomicity clause, as an interleaving the
pre-check cannot exclude: both concurrent `register` calls for
`"a@b.c"` run their `find_one` pre-check against the initial directory
(both pass, the pre-check answers `false`), then both run `insert_one` —
which, with no unique index declared on `users`, rejects nothing: the
second, duplicate-key insert also succeeds, so there is no atomic
rejection to convert into a conflict error, and the directory ends with
two records for the email instead of exactly one. -/
theorem register_precheck_race :
    register_precheck [] "a@b.c" = false ∧
    insert_one (insert_one [] (mkUser "1" "a@b.c")) (mkUser "2" "a@b.c")
      = [mkUser "1" "a@b.c", mkUser "2" "a@b.c"] ∧
    countEmail (insert_one (insert_one [] (mkUser "1" "a@b.c")) (mkUser "2" "a@b.c")) "a@b.c"
      = 2 :=
  ⟨by decide, by decide, by decide⟩

/-- Witness for C5 (amended): a concrete directory; registering
`"a@b.c"` twice sequentially conflicts on the second call and leaves one
record. -/
theorem register_duplicate_email_witness :
    register defaultSettings id [mkUser "9" "a@b.c"] "a@b.c" "pw" none 0 "10"
      = ([mkUser "9" "a@b.c"], .error ⟨400, "Email already registered"⟩) ∧
    (∃ tokens, (register defaultSettings id [] "a@b.c" "pw" none 0 "10").2 = .ok tokens) ∧
    register defaultSettings id (register defaultSettings id [] "a@b.c" "pw" none 0 "10").1
        "a@b.c" "pw" none 0 "11"
      = ((register defaultSettings id [] "a@b.c" "pw" none 0 "10").1,
         .error ⟨400, "Email already registered"⟩) ∧
    countEmail (register defaultSettings id [] "a@b.c" "pw" none 0 "10").1 "a@b.c" = 1 :=
  register_duplicate_email defaultSettings id [] [mkUser "9" "a@b.c"] "a@b.c" "pw" "pw"
    none none 0 0 "10" "11" (mkUser "9" "a@b.c") (by decide) (by decide)

/-- A record found by id carries that id. -/
theorem findOneById_id {users : List UserDoc} {uid : String} {u : UserDoc}
    (h : findOneById users uid = some u) : u.id = uid := by
  have hp := List.find?_some h
  simpa using hp

/-- C6 (amended): `get_current_user` has exactly three externally visible
outcomes: it returns the user record whose `id` equals the token's `sub`
claim; or it fails with the uniform 401 credentials error exactly when the
access verifier rejects the token, when the `sub` claim is missing, or
when a well-formed subject does not resolve in the directory; or — the
mode the frozen claim omits — when the token verifies but its `sub` is not
a well-formed `ObjectId` string, the uncaught `InvalidId` escapes and
surfaces as a 500, not as the AuthError. -/
theorem get_current_user_outcomes (s : Settings) (tok : Jwt) (now : Int)
    (users : List UserDoc) :
    (∃ u uid, get_current_user s tok now users = .ok u ∧
      (∃ c, decode_access_token s tok now = some c ∧ c.sub = some uid) ∧
      findOneById users uid = some u ∧ u.id = uid) ∨
    (get_current_user s tok now users = .credentialsError ∧
      (decode_access_token s tok now = none ∨
       (∃ c, decode_access_token s tok now = some c ∧ c.sub = none) ∨
       (∃ c uid, decode_access_token s tok now = some c ∧ c.sub = some uid ∧
         isValidObjectId uid = true ∧ findOneById users uid = none))) ∨
    (get_current_user s tok now users = .invalidIdError ∧
      ∃ c uid, decode_access_token s tok now = some c ∧ c.sub = some uid ∧
        isValidObjectId uid = false) := by
  unfold get_current_user
  cases hd : decode_access_token s tok now with
  | none => exact .inr (.inl ⟨rfl, .inl rfl⟩)
  | some c =>
    dsimp only
    cases hs : c.sub with
    | none => exact .inr (.inl ⟨rfl, .inr (.inl ⟨c, rfl, hs⟩)⟩)
    | some uid =>
      dsimp only
      by_cases hv : isValidObjectId uid = true
      · rw [if_pos hv]
        cases hf : findOneById users uid with
        | none => exact .inr (.inl ⟨rfl, .inr (.inr ⟨c, uid, rfl, hs, hv, hf⟩)⟩)
        | some u => exact .inl ⟨u, uid, rfl, ⟨c, rfl, hs⟩, hf, findOneById_id hf⟩
      · rw [if_neg hv]
        exact .inr (.inr ⟨rfl, c, uid, rfl, hs, by simpa using hv⟩)

/-- Counterexample to C6 as frozen: a token signed with the configured
access secret, type `"access"`, unexpired, but with `sub = "u"` — not a
valid `ObjectId` string. `get_current_user` neither returns a user nor
fails with the 401 AuthError: `ObjectId("u")` raises, and the client sees
the 500 internal-error response. -/
theorem get_current_user_invalid_objectid :
    get_current_user defaultSettings
        (create_access_token defaultSettings { sub := some "u" } 0) 0 []
      = .invalidIdError ∧
    authOutcomeResponse (get_current_user defaultSettings
        (create_access_token defaultSettings { sub := some "u" } 0) 0 [])
      = some (500, { error := "internal_server_error"
                     message := "An unexpected error occurred" }) :=
  ⟨by decide, by decide⟩

/-- C9 (amended): the GitHub callback's update of an existing user sets
provider id, avatar, `last_login` and `updated_at`, leaves identity and
account fields untouched, and sets the display name to the provider's
name whenever the provider supplies a non-empty one — the existing
display name survives only when the provider's name is absent or empty
(Python `github_user.get("name") or user.get("full_name")`). -/
theorem github_update_frame (u : UserDoc) (gh : GithubUser) (now : Int) :
    (applyGithubUpdate u gh now).github_id = some gh.id ∧
    (applyGithubUpdate u gh now).avatar_url = gh.avatar_url ∧
    (applyGithubUpdate u gh now).last_login = now ∧
    (applyGithubUpdate u gh now).updated_at = now ∧
    (applyGithubUpdate u gh now).full_name = pyOrStr gh.name u.full_name ∧
    ((gh.name = none ∨ gh.name = some "") → (applyGithubUpdate u gh now).full_name = u.full_name) ∧
    (∀ nm, gh.name = some nm → nm ≠ "" → (applyGithubUpdate u gh now).full_name = some nm) ∧
    (applyGithubUpdate u gh now).id = u.id ∧
    (applyGithubUpdate u gh now).email = u.email ∧
    (applyGithubUpdate u gh now).password_hash = u.password_hash ∧
    (applyGithubUpdate u gh now).provider = u.provider ∧
    (applyGithubUpdate u gh now).subscription_tier = u.subscription_tier ∧
    (applyGithubUpdate u gh now).created_at = u.created_at := by
  refine ⟨rfl, rfl, rfl, rfl, rfl, ?_, ?_, rfl, rfl, rfl, rfl, rfl, rfl⟩
  · rintro (h | h) <;> simp [applyGithubUpdate, pyOrStr, h]
  · intro nm h hne
    simp [applyGithubUpdate, pyOrStr, h, hne]

/-- Witness for C9 (amended) at a concrete user and profile. -/
theorem github_update_frame_witness :
    (applyGithubUpdate { mkUser "1" "a@b.c" with full_name := some "Old" }
        { id := "42", name := some "New", avatar_url := some "av" } 5).github_id = some "42" ∧
    (applyGithubUpdate { mkUser "1" "a@b.c" with full_name := some "Old" }
        { id := "42", name := some "New", avatar_url := some "av" } 5).avatar_url = some "av" ∧
    (applyGithubUpdate { mkUser "1" "a@b.c" with full_name := some "Old" }
        { id := "42", name := some "New", avatar_url := some "av" } 5).last_login = 5 ∧
    (applyGithubUpdate { mkUser "1" "a@b.c" with full_name := some "Old" }
        { id := "42", name := some "New", avatar_url := some "av" } 5).updated_at = 5 ∧
    (applyGithubUpdate { mkUser "1" "a@b.c" with full_name := some "Old" }
        { id := "42", name := some "New", avatar_url := some "av" } 5).full_name
      = pyOrStr (some "New") (some "Old") ∧
    (((some "New" : Option String) = none ∨ (some "New" : Option String) = some "") →
      (applyGithubUpdate { mkUser "1" "a@b.c" with full_name := some "Old" }
        { id := "42", name := some "New", avatar_url := some "av" } 5).full_name = some "Old") ∧
    (∀ nm, (some "New" : Option String) = some nm → nm ≠ "" →
      (applyGithubUpdate { mkUser "1" "a@b.c" with full_name := some "Old" }
        { id := "42", name := some "New", avatar_url := some "av" } 5).full_name = some nm) ∧
    (applyGithubUpdate { mkUser "1" "a@b.c" with full_name := some "Old" }
        { id := "42", name := some "New", avatar_url := some "av" } 5).id = "1" ∧
    (applyGithubUpdate { mkUser "1" "a@b.c" with full_name := some "Old" }
        { id := "42", name := some "New", avatar_url := some "av" } 5).email = "a@b.c" ∧
    (applyGithubUpdate { mkUser "1" "a@b.c" with full_name := some "Old" }
        { id := "42", name := some "New", avatar_url := some "av" } 5).password_hash = none ∧
    (applyGithubUpdate { mkUser "1" "a@b.c" with full_name := some "Old" }
        { id := "42", name := some "New", avatar_url := some "av" } 5).provider = "email" ∧
    (applyGithubUpdate { mkUser "1" "a@b.c" with full_name := some "Old" }
        { id := "42", name := some "New", avatar_url := some "av" } 5).subscription_tier
      = "free" ∧
    (applyGithubUpdate { mkUser "1" "a@b.c" with full_name := some "Old" }
        { id := "42", name := some "New", avatar_url := some "av" } 5).created_at = 0 :=
  github_update_frame { mkUser "1" "a@b.c" with full_name := some "Old" }
    { id := "42", name := some "New", avatar_url := some "av" } 5

/-- Counterexample to C9 as frozen: a user whose display name is already
set (`"Old"`) does not keep it when the provider profile supplies a
different one — the update stores the provider's `"New"`. -/
theorem github_update_overwrites_name :
    (applyGithubUpdate { mkUser "1" "a@b.c" with full_name := some "Old" }
        { id := "42", name := some "New", avatar_url := some "av" } 5).full_name
      = some "New" ∧
    (applyGithubUpdate { mkUser "1" "a@b.c" with full_name := some "Old" }
        { id := "42", name := some "New", avatar_url := some "av" } 5).full_name
      ≠ some "Old" :=
  ⟨by decide, by decide⟩
